import Mathlib

/-!
# Verification of the SiPixelClusterizer per-event clustering pipeline

A shallow embedding of `src/src/SiPixelClusterProducer.cc` (namespace `cms`):
the readiness gate set up by `SiPixelClusterProducer::setupClusterizer` and the
per-event pipeline `SiPixelClusterProducer::run`, together with the
detector-unit-keyed output collection (`SiPixelClusterCollection`, an external
data format modelled from the specification of the Range-Keyed Store).

The embedding is parametric in the digi type `δ`, the cluster type `γ` and the
pixel geometry descriptor type `π`: the producer treats all three as opaque.
Machine `unsigned int` detector identifiers are modelled as `Nat` (the code
never performs arithmetic on them, only copies and comparisons).  The fixed
noise vector `std::vector<float>(768, 2)` is modelled as `List.replicate 768 2`
over `Nat`: the value `2.0f` is exactly representable and the code only passes
the vector along, never computing with it.
-/

set_option maxRecDepth 10000

namespace SiPixelClusterizer

/-- The input collection for one event (`PixelDigiCollection`): it enumerates
the active detector-unit identifiers (`detIDs()`) and exposes, per identifier,
the half-open range of digis belonging to that unit (`get(detid)`), modelled
as the list of digis in that range. -/
structure PixelDigiCollection (δ : Type) where
  detIDs : List Nat
  get : Nat → List δ

/-- Modelled from the spec: the Range-Keyed Store backing the output collection
(`SiPixelClusterCollection`, defined in the external DataFormats package, not
in this repository's sources).  Per §4.3 of the spec, `put(range, key)` appends
the range's elements contiguously into backing storage and records
`[key → (offsetStart, offsetEnd)]`; `get(key)` returns the stored range or an
empty range; `detectorUnitIdentifiers()` returns the keys in insertion order. -/
structure SiPixelClusterCollection (γ : Type) where
  container : List γ
  index : List (Nat × Nat × Nat)

/-- The empty output collection, as created at the start of an event. -/
def SiPixelClusterCollection.empty {γ : Type} : SiPixelClusterCollection γ :=
  { container := [], index := [] }

/-- Modelled from the spec: `put(range, key)` appends the given range's
elements contiguously into backing storage and records
`[key → (offsetStart, offsetEnd)]`. -/
def SiPixelClusterCollection.put {γ : Type} (c : SiPixelClusterCollection γ)
    (range : List γ) (detid : Nat) : SiPixelClusterCollection γ :=
  { container := c.container ++ range
    index := c.index ++ [(detid, c.container.length, c.container.length + range.length)] }

/-- Modelled from the spec: `detectorUnitIdentifiers()` returns the keys
currently present, in insertion order. -/
def SiPixelClusterCollection.detIDs {γ : Type} (c : SiPixelClusterCollection γ) : List Nat :=
  c.index.map (·.1)

/-- Modelled from the spec: `get(key)` returns the stored `[begin, end)` range
for `key` (a view over the backing storage), or an empty range if `key` was
never inserted. -/
def SiPixelClusterCollection.get {γ : Type} (c : SiPixelClusterCollection γ)
    (detid : Nat) : List γ :=
  match c.index.find? (fun t => t.1 == detid) with
  | some t => (c.container.drop t.2.1).take (t.2.2 - t.2.1)
  | none => []

/-- A geometry descriptor as returned by `TrackerGeometry::idToDetUnit`: either
a pixel detector unit (the `dynamic_cast<const PixelGeomDetUnit*>` succeeds) or
some other kind of detector unit (the cast yields null). -/
inductive GeomDetUnit (π : Type) where
  | pixel (p : π)
  | nonPixel
  deriving DecidableEq

/-- The Geometry Resolver: `idToDetUnit` maps a detector identifier to a
geometry descriptor, or `none` when the identifier is unknown (NotFound). -/
abbrev TrackerGeometry (π : Type) := Nat → Option (GeomDetUnit π)

/-- The `dynamic_cast<const PixelGeomDetUnit*>(geoUnit)` step in `run`:
yields the pixel descriptor, or `none` both when `idToDetUnit` returned null
(NotFound) and when the unit is not pixel-type. -/
def toPixelDet {π : Type} : Option (GeomDetUnit π) → Option π
  | some (GeomDetUnit.pixel p) => some p
  | some GeomDetUnit.nonPixel => none
  | none => none

/-- The Clustering Strategy interface (`PixelClusterizer::clusterizeDetUnit`):
given the digi range, the detector identifier, the pixel geometry descriptor,
the noise vector and the bad-channel list, produce a sequence of clusters. -/
abbrev Clusterizer (δ γ π : Type) := List δ → Nat → π → List Nat → List Int → List γ

/-- Observable events emitted while running: `edm::LogError` messages, calls
into the Geometry Resolver (`idToDetUnit`), calls into the Clustering Strategy
(`clusterizeDetUnit`, recording the arguments passed), and the final
`LogDebug` summary with the strategy name and the two counters. -/
inductive RunEvent (δ γ : Type) where
  | logError (msg : String)
  | idToDetUnitCall (detid : Nat)
  | clusterizeCall (detid : Nat) (digis : List δ) (noiseVec : List Nat) (badChannels : List Int)
  | logDebug (clusterMode : String) (numberOfClusters : Nat) (numberOfDetUnits : Nat)
  deriving DecidableEq

/-- The module's configuration-derived state: the strategy name
(`clusterMode_`), the strategy instance if one was built (`clusterizer_`,
a null pointer modelled as `none`), and the readiness gate
(`readyToCluster_`). -/
structure ProducerState (δ γ π : Type) where
  clusterMode : String
  clusterizer : Option (Clusterizer δ γ π)
  readyToCluster : Bool

/-- The `edm::ParameterSet` slice the producer reads: the untracked
`ClusterMode` string parameter (`none` when absent, so the default applies). -/
structure ParameterSet where
  clusterMode : Option String

/-- `conf_.getUntrackedParameter<std::string>("ClusterMode","PixelThresholdClusterizer")`. -/
def ParameterSet.getClusterMode (conf : ParameterSet) : String :=
  conf.clusterMode.getD "PixelThresholdClusterizer"

/-- The `edm::LogError` message emitted by `setupClusterizer` for an
unsupported strategy name, concatenated exactly as the stream inserters do. -/
def invalidChoiceMsg (clusterMode : String) : String :=
  "[SiPixelClusterProducer]:" ++ " choice " ++ clusterMode ++ " is invalid.\n"
    ++ "Possible choices:\n" ++ "    PixelThresholdClusterizer"

/-- `SiPixelClusterProducer::setupClusterizer`: resolve the strategy name from
configuration; on a match build the strategy instance and set the gate READY,
otherwise log a configuration error and set the gate NOT_READY.  The factory
`mk` stands for `new PixelThresholdClusterizer(conf_)` (an external
collaborator).  Returns the resulting state and the emitted log events. -/
def setupClusterizer {δ γ π : Type} (mk : ParameterSet → Clusterizer δ γ π)
    (conf : ParameterSet) : ProducerState δ γ π × List (RunEvent δ γ) :=
  let clusterMode := conf.getClusterMode
  if clusterMode = "PixelThresholdClusterizer" then
    ({ clusterMode := clusterMode, clusterizer := some (mk conf), readyToCluster := true }, [])
  else
    ({ clusterMode := clusterMode, clusterizer := none, readyToCluster := false },
      [RunEvent.logError (invalidChoiceMsg clusterMode)])

/-- The `edm::LogError` message emitted by `run` when the gate is NOT_READY. -/
def notReadyMsg : String := " at least one clusterizer is not ready -- can't run!"

/-- The loop body of `SiPixelClusterProducer::run` over the detunit id list:
for each identifier, bump the unit counter, fetch the digi range, resolve the
geometry (a failed resolution or a non-pixel unit hits `assert(0)`, modelled
as `Except.error ()`: a fatal halt delivering nothing), invoke the clusterizer
with the fixed noise vector and empty bad-channel list, and `put` the result
into the output when non-empty, bumping the cluster counter. -/
def runLoop {δ γ π : Type} (clusterizer : Clusterizer δ γ π) (geom : TrackerGeometry π)
    (input : PixelDigiCollection δ) :
    List Nat → SiPixelClusterCollection γ → List (RunEvent δ γ) → Nat → Nat →
    Except Unit (SiPixelClusterCollection γ × List (RunEvent δ γ) × Nat × Nat)
  | [], output, events, numberOfClusters, numberOfDetUnits =>
    Except.ok (output, events, numberOfClusters, numberOfDetUnits)
  | detid :: rest, output, events, numberOfClusters, numberOfDetUnits =>
    let digiRange := input.get detid
    let events := events ++ [RunEvent.idToDetUnitCall detid]
    match toPixelDet (geom detid) with
    | none => Except.error ()
    | some pixDet =>
      let noiseVec : List Nat := List.replicate 768 2
      let badChannels : List Int := []
      let clustersOnDetUnit := clusterizer digiRange detid pixDet noiseVec badChannels
      let events := events ++ [RunEvent.clusterizeCall detid digiRange noiseVec badChannels]
      if clustersOnDetUnit.length > 0 then
        runLoop clusterizer geom input rest (output.put clustersOnDetUnit detid) events
          (numberOfClusters + clustersOnDetUnit.length) (numberOfDetUnits + 1)
      else
        runLoop clusterizer geom input rest output events
          numberOfClusters (numberOfDetUnits + 1)

/-- The result of a `run` invocation that returned normally: the output
collection, the emitted events, and the module state after the call. -/
structure RunSuccess (δ γ π : Type) where
  output : SiPixelClusterCollection γ
  events : List (RunEvent δ γ)
  state : ProducerState δ γ π

/-- `SiPixelClusterProducer::run(input, output, geom)`: when the gate is
NOT_READY, log the error and return with `output` untouched; otherwise iterate
over the input's detunit ids (dereferencing a null `clusterizer_` is an
impossible crash modelled as a fatal error) and emit the LogDebug summary.
`Except.error ()` models the `assert(0)` hard stop: the process halts and
no output collection is handed to the caller. -/
def run {δ γ π : Type} (state : ProducerState δ γ π) (input : PixelDigiCollection δ)
    (output : SiPixelClusterCollection γ) (geom : TrackerGeometry π) :
    Except Unit (RunSuccess δ γ π) :=
  if state.readyToCluster = false then
    Except.ok { output := output, events := [RunEvent.logError notReadyMsg], state := state }
  else
    match state.clusterizer with
    | none => Except.error ()
    | some clusterizer =>
      match runLoop clusterizer geom input input.detIDs output [] 0 0 with
      | Except.error e => Except.error e
      | Except.ok (output, events, numberOfClusters, numberOfDetUnits) =>
        Except.ok { output := output
                    events := events
                      ++ [RunEvent.logDebug state.clusterMode numberOfClusters numberOfDetUnits]
                    state := state }

/-- The cluster sequence the Clustering Strategy produces for identifier `d`
of `input` under geometry `geom` (with the pipeline's fixed noise vector and
empty bad-channel list); `[]` when geometry resolution fails for `d`. -/
def clustersAt {δ γ π : Type} (clusterizer : Clusterizer δ γ π) (geom : TrackerGeometry π)
    (input : PixelDigiCollection δ) (d : Nat) : List γ :=
  match toPixelDet (geom d) with
  | some pixDet => clusterizer (input.get d) d pixDet (List.replicate 768 2) []
  | none => []

/-- One step of the output-building fold: insert `d`'s clusters iff non-empty. -/
def processDet {δ γ π : Type} (clusterizer : Clusterizer δ γ π) (geom : TrackerGeometry π)
    (input : PixelDigiCollection δ) (output : SiPixelClusterCollection γ) (d : Nat) :
    SiPixelClusterCollection γ :=
  if (clustersAt clusterizer geom input d).length > 0 then
    output.put (clustersAt clusterizer geom input d) d
  else
    output

/-- The events one successfully processed detunit contributes to the log. -/
def eventsAt {δ γ : Type} (input : PixelDigiCollection δ) (d : Nat) : List (RunEvent δ γ) :=
  [RunEvent.idToDetUnitCall d,
   RunEvent.clusterizeCall d (input.get d) (List.replicate 768 2) []]

/-! ## Lemmas about the Range-Keyed Store -/

/-- Well-formedness of the store: every recorded offset range lies within the
backing storage.  Holds for every collection built by `put` from `empty`. -/
def SiPixelClusterCollection.WF {γ : Type} (c : SiPixelClusterCollection γ) : Prop :=
  ∀ t ∈ c.index, t.2.1 ≤ t.2.2 ∧ t.2.2 ≤ c.container.length

theorem SiPixelClusterCollection.WF_empty {γ : Type} :
    (SiPixelClusterCollection.empty (γ := γ)).WF := by
  intro t ht
  simp [SiPixelClusterCollection.empty] at ht

theorem SiPixelClusterCollection.WF_put {γ : Type} {c : SiPixelClusterCollection γ}
    (hwf : c.WF) (range : List γ) (detid : Nat) : (c.put range detid).WF := by
  intro t ht
  simp only [SiPixelClusterCollection.put, List.mem_append, List.mem_singleton] at ht
  rcases ht with ht | ht
  · have := hwf t ht
    simp only [SiPixelClusterCollection.put, List.length_append]
    omega
  · subst ht
    simp only [SiPixelClusterCollection.put, List.length_append]
    omega

theorem SiPixelClusterCollection.detIDs_empty {γ : Type} :
    (SiPixelClusterCollection.empty (γ := γ)).detIDs = [] := rfl

theorem SiPixelClusterCollection.detIDs_put {γ : Type} (c : SiPixelClusterCollection γ)
    (range : List γ) (detid : Nat) :
    (c.put range detid).detIDs = c.detIDs ++ [detid] := by
  simp [SiPixelClusterCollection.put, SiPixelClusterCollection.detIDs]

theorem SiPixelClusterCollection.find?_isSome_iff_mem {γ : Type}
    (c : SiPixelClusterCollection γ) (k : Nat) :
    (c.index.find? (fun t => t.1 == k)).isSome = true ↔ k ∈ c.detIDs := by
  rw [List.find?_isSome]
  constructor
  · rintro ⟨t, ht, hbeq⟩
    have : t.1 = k := by simpa using hbeq
    exact this ▸ List.mem_map_of_mem (·.1) ht
  · intro hk
    obtain ⟨t, ht, hteq⟩ := List.mem_map.mp hk
    exact ⟨t, ht, by simp [hteq]⟩

theorem SiPixelClusterCollection.get_eq_nil_of_not_mem {γ : Type}
    {c : SiPixelClusterCollection γ} {k : Nat} (hk : k ∉ c.detIDs) : c.get k = [] := by
  have hfind : c.index.find? (fun t => t.1 == k) = none := by
    cases hf : c.index.find? (fun t => t.1 == k) with
    | none => rfl
    | some t =>
      exact absurd ((c.find?_isSome_iff_mem k).mp (by simp [hf])) hk
  simp [SiPixelClusterCollection.get, hfind]

theorem SiPixelClusterCollection.get_empty {γ : Type} (k : Nat) :
    (SiPixelClusterCollection.empty (γ := γ)).get k = [] := rfl

theorem SiPixelClusterCollection.get_put_self {γ : Type} {c : SiPixelClusterCollection γ}
    {detid : Nat} (hd : detid ∉ c.detIDs) (range : List γ) :
    (c.put range detid).get detid = range := by
  have hfind : c.index.find? (fun t => t.1 == detid) = none := by
    cases hf : c.index.find? (fun t => t.1 == detid) with
    | none => rfl
    | some t =>
      exact absurd ((c.find?_isSome_iff_mem detid).mp (by simp [hf])) hd
  simp [SiPixelClusterCollection.get, SiPixelClusterCollection.put, List.find?_append,
    hfind, List.drop_left, List.take_length]

theorem SiPixelClusterCollection.get_put_of_mem {γ : Type} {c : SiPixelClusterCollection γ}
    (hwf : c.WF) {k : Nat} (hk : k ∈ c.detIDs) (range : List γ) (detid : Nat) :
    (c.put range detid).get k = c.get k := by
  obtain ⟨t, hfind⟩ := Option.isSome_iff_exists.mp ((c.find?_isSome_iff_mem k).mpr hk)
  have hbounds := hwf t (List.mem_of_find?_eq_some hfind)
  simp only [SiPixelClusterCollection.get, SiPixelClusterCollection.put, List.find?_append,
    hfind, Option.or_some]
  rw [List.drop_append_of_le_length (by omega), List.take_append_of_le_length]
  simp only [List.length_drop]
  omega

theorem SiPixelClusterCollection.get_put_of_ne {γ : Type} {c : SiPixelClusterCollection γ}
    {k detid : Nat} (hne : k ≠ detid) (hk : k ∉ c.detIDs) (range : List γ) :
    (c.put range detid).get k = [] := by
  apply SiPixelClusterCollection.get_eq_nil_of_not_mem
  rw [SiPixelClusterCollection.detIDs_put]
  simp [hk, hne]

/-! ## Characterization of the pipeline loop -/

/-- When every identifier in the list resolves to a pixel geometry descriptor,
`runLoop` returns normally; the output is the fold of `processDet`, the events
are the per-unit resolver and clusterizer calls in order, and the counters
accumulate the unit count and the total cluster count. -/
theorem runLoop_ok_of_resolve {δ γ π : Type} (clusterizer : Clusterizer δ γ π)
    (geom : TrackerGeometry π) (input : PixelDigiCollection δ) (l : List Nat)
    (hres : ∀ d ∈ l, (toPixelDet (geom d)).isSome = true)
    (output : SiPixelClusterCollection γ) (events : List (RunEvent δ γ))
    (numberOfClusters numberOfDetUnits : Nat) :
    runLoop clusterizer geom input l output events numberOfClusters numberOfDetUnits =
      Except.ok (l.foldl (processDet clusterizer geom input) output,
        events ++ l.flatMap (eventsAt input),
        numberOfClusters + (l.map fun d => (clustersAt clusterizer geom input d).length).sum,
        numberOfDetUnits + l.length) := by
  induction l generalizing output events numberOfClusters numberOfDetUnits with
  | nil => simp [runLoop]
  | cons d rest ih =>
    have hd : (toPixelDet (geom d)).isSome = true := hres d (List.mem_cons_self d rest)
    obtain ⟨pixDet, hpix⟩ := Option.isSome_iff_exists.mp hd
    have hrest : ∀ x ∈ rest, (toPixelDet (geom x)).isSome = true :=
      fun x hx => hres x (List.mem_cons_of_mem _ hx)
    have hcl : clustersAt clusterizer geom input d
        = clusterizer (input.get d) d pixDet (List.replicate 768 2) [] := by
      simp [clustersAt, hpix]
    simp only [runLoop, hpix]
    by_cases hlen : (clusterizer (input.get d) d pixDet (List.replicate 768 2) []).length > 0
    · rw [if_pos hlen, ih hrest]
      have hout : (output.put (clusterizer (input.get d) d pixDet (List.replicate 768 2) []) d)
          = processDet clusterizer geom input output d := by
        rw [processDet, hcl, if_pos (hcl ▸ hlen)]
      rw [hout]
      simp [eventsAt, List.flatMap_cons, List.append_assoc, hcl]
      omega
    · rw [if_neg hlen, ih hrest]
      have hnil : clusterizer (input.get d) d pixDet (List.replicate 768 2) [] = [] := by
        cases h : clusterizer (input.get d) d pixDet (List.replicate 768 2) [] with
        | nil => rfl
        | cons a t => rw [h] at hlen; simp at hlen
      have hout : processDet clusterizer geom input output d = output := by
        rw [processDet, hcl, if_neg (hcl ▸ hlen)]
      simp only [List.foldl_cons, hout]
      simp only [eventsAt, List.flatMap_cons, List.append_assoc, List.singleton_append,
        List.cons_append, List.nil_append, List.map_cons, List.sum_cons, List.length_cons,
        hcl, hnil, List.length_nil, Except.ok.injEq, Prod.mk.injEq, Nat.zero_add,
        true_and, and_true]
      omega

/-- `runLoop` returns normally iff every identifier in the list resolves to a
pixel geometry descriptor; otherwise it hits the `assert(0)` fatal halt. -/
theorem runLoop_isOk_iff {δ γ π : Type} (clusterizer : Clusterizer δ γ π)
    (geom : TrackerGeometry π) (input : PixelDigiCollection δ) (l : List Nat)
    (output : SiPixelClusterCollection γ) (events : List (RunEvent δ γ))
    (numberOfClusters numberOfDetUnits : Nat) :
    (runLoop clusterizer geom input l output events numberOfClusters
        numberOfDetUnits).isOk = true ↔
      ∀ d ∈ l, (toPixelDet (geom d)).isSome = true := by
  induction l generalizing output events numberOfClusters numberOfDetUnits with
  | nil => simp [runLoop, Except.isOk, Except.toBool]
  | cons d rest ih =>
    cases hpix : toPixelDet (geom d) with
    | none =>
      simp only [runLoop, hpix]
      simp only [Except.isOk, Except.toBool]
      constructor
      · intro h
        exact absurd h (by simp)
      · intro h
        have := h d (List.mem_cons_self d rest)
        rw [hpix] at this
        exact absurd this (by simp)
    | some pixDet =>
      simp only [runLoop, hpix]
      by_cases hlen :
          (clusterizer (input.get d) d pixDet (List.replicate 768 2) []).length > 0
      · rw [if_pos hlen, ih]
        simp only [List.forall_mem_cons, hpix, Option.isSome_some, true_and]
      · rw [if_neg hlen, ih]
        simp only [List.forall_mem_cons, hpix, Option.isSome_some, true_and]

/-! ## The output collection built by the pipeline -/

/-- The keys of the output built by folding `processDet`: the initial keys
followed by exactly those processed identifiers with a non-empty cluster
sequence, in processing order. -/
theorem detIDs_foldl_processDet {δ γ π : Type} (clusterizer : Clusterizer δ γ π)
    (geom : TrackerGeometry π) (input : PixelDigiCollection δ) (l : List Nat)
    (output : SiPixelClusterCollection γ) :
    (l.foldl (processDet clusterizer geom input) output).detIDs
      = output.detIDs
        ++ l.filter (fun d => !(clustersAt clusterizer geom input d).isEmpty) := by
  induction l generalizing output with
  | nil => simp
  | cons d rest ih =>
    rw [List.foldl_cons, ih]
    by_cases hlen : (clustersAt clusterizer geom input d).length > 0
    · have hne : ((clustersAt clusterizer geom input d).isEmpty) = false := by
        cases h : clustersAt clusterizer geom input d with
        | nil => rw [h] at hlen; simp at hlen
        | cons a t => simp
      rw [processDet, if_pos hlen, SiPixelClusterCollection.detIDs_put]
      simp [List.filter_cons, hne]
    · have hne : ((clustersAt clusterizer geom input d).isEmpty) = true := by
        cases h : clustersAt clusterizer geom input d with
        | nil => simp
        | cons a t => rw [h] at hlen; simp at hlen
      rw [processDet, if_neg hlen]
      simp [List.filter_cons, hne]

/-- Folding `processDet` preserves well-formedness of the store. -/
theorem WF_foldl_processDet {δ γ π : Type} (clusterizer : Clusterizer δ γ π)
    (geom : TrackerGeometry π) (input : PixelDigiCollection δ) (l : List Nat)
    {output : SiPixelClusterCollection γ} (hwf : output.WF) :
    (l.foldl (processDet clusterizer geom input) output).WF := by
  induction l generalizing output with
  | nil => exact hwf
  | cons d rest ih =>
    rw [List.foldl_cons]
    apply ih
    rw [processDet]
    by_cases hlen : (clustersAt clusterizer geom input d).length > 0
    · rw [if_pos hlen]
      exact SiPixelClusterCollection.WF_put hwf _ _
    · rwa [if_neg hlen]

/-- Point lookup in the output built by folding `processDet` over a
duplicate-free identifier list disjoint from the initial keys: keys already
present keep their ranges; a processed key maps to its cluster sequence;
anything else maps to the empty range. -/
theorem get_foldl_processDet {δ γ π : Type} (clusterizer : Clusterizer δ γ π)
    (geom : TrackerGeometry π) (input : PixelDigiCollection δ) (l : List Nat)
    {output : SiPixelClusterCollection γ} (hwf : output.WF) (hnodup : l.Nodup)
    (hdisj : ∀ x ∈ l, x ∉ output.detIDs) (k : Nat) :
    (l.foldl (processDet clusterizer geom input) output).get k
      = if k ∈ output.detIDs then output.get k
        else if k ∈ l then clustersAt clusterizer geom input k else [] := by
  induction l generalizing output with
  | nil =>
    simp only [List.foldl_nil, List.not_mem_nil, if_false]
    by_cases hk : k ∈ output.detIDs
    · rw [if_pos hk]
    · rw [if_neg hk, SiPixelClusterCollection.get_eq_nil_of_not_mem hk]
  | cons d rest ih =>
    rw [List.foldl_cons]
    have hdout : d ∉ output.detIDs := hdisj d (List.mem_cons_self d rest)
    have hsub : (processDet clusterizer geom input output d).detIDs
        = output.detIDs ∨ (processDet clusterizer geom input output d).detIDs
        = output.detIDs ++ [d] := by
      rw [processDet]
      by_cases hlen : (clustersAt clusterizer geom input d).length > 0
      · rw [if_pos hlen, SiPixelClusterCollection.detIDs_put]
        exact Or.inr rfl
      · rw [if_neg hlen]
        exact Or.inl rfl
    have hwf' : (processDet clusterizer geom input output d).WF := by
      rw [processDet]
      by_cases hlen : (clustersAt clusterizer geom input d).length > 0
      · rw [if_pos hlen]
        exact SiPixelClusterCollection.WF_put hwf _ _
      · rwa [if_neg hlen]
    have hdisj' : ∀ x ∈ rest, x ∉ (processDet clusterizer geom input output d).detIDs := by
      intro x hx
      have hxd : x ≠ d := by
        intro h
        exact (List.nodup_cons.mp hnodup).1 (h ▸ hx)
      have hxout : x ∉ output.detIDs := hdisj x (List.mem_cons_of_mem _ hx)
      rcases hsub with h | h <;> rw [h] <;> simp [hxout, hxd]
    rw [ih hwf' (List.nodup_cons.mp hnodup).2 hdisj']
    by_cases hkout : k ∈ output.detIDs
    · have hkd : k ≠ d := fun h => hdout (h ▸ hkout)
      have hk' : k ∈ (processDet clusterizer geom input output d).detIDs := by
        rcases hsub with h | h <;> rw [h] <;> simp [hkout]
      rw [if_pos hk', if_pos hkout]
      rw [processDet]
      by_cases hlen : (clustersAt clusterizer geom input d).length > 0
      · rw [if_pos hlen]
        exact SiPixelClusterCollection.get_put_of_mem hwf hkout _ _
      · rw [if_neg hlen]
    · rw [if_neg hkout]
      by_cases hkd : k = d
      · subst hkd
        by_cases hlen : (clustersAt clusterizer geom input k).length > 0
        · have hk' : k ∈ (processDet clusterizer geom input output k).detIDs := by
            rw [processDet, if_pos hlen, SiPixelClusterCollection.detIDs_put]
            simp
          rw [if_pos hk', processDet, if_pos hlen,
            SiPixelClusterCollection.get_put_self hdout]
          simp
        · have hnil : clustersAt clusterizer geom input k = [] := by
            cases h : clustersAt clusterizer geom input k with
            | nil => rfl
            | cons a t => rw [h] at hlen; simp at hlen
          have hk' : k ∉ (processDet clusterizer geom input output k).detIDs := by
            rw [processDet, if_neg hlen]
            exact hdout
          have hkrest : k ∉ rest := (List.nodup_cons.mp hnodup).1
          rw [if_neg hk', if_neg hkrest, hnil]
          simp
      · have hk' : k ∉ (processDet clusterizer geom input output d).detIDs := by
          rcases hsub with h | h <;> rw [h] <;> simp [hkout, hkd]
        rw [if_neg hk']
        simp only [List.mem_cons]
        by_cases hkrest : k ∈ rest
        · rw [if_pos hkrest, if_pos (Or.inr hkrest)]
        · rw [if_neg hkrest, if_neg (by tauto)]

/-! ## Characterization of `run` -/

/-- A NOT_READY `run` logs the error and returns with `output` untouched. -/
theorem run_notReady {δ γ π : Type} (state : ProducerState δ γ π)
    (hready : state.readyToCluster = false) (input : PixelDigiCollection δ)
    (output : SiPixelClusterCollection γ) (geom : TrackerGeometry π) :
    run state input output geom
      = Except.ok { output := output, events := [RunEvent.logError notReadyMsg],
                    state := state } := by
  simp [run, hready]

/-- A READY `run` whose identifiers all resolve to pixel geometry descriptors
returns normally, with the output, events and counters fully determined. -/
theorem run_ready_eq {δ γ π : Type} (state : ProducerState δ γ π)
    (hready : state.readyToCluster = true) (c : Clusterizer δ γ π)
    (hc : state.clusterizer = some c) (input : PixelDigiCollection δ)
    (output : SiPixelClusterCollection γ) (geom : TrackerGeometry π)
    (hres : ∀ d ∈ input.detIDs, (toPixelDet (geom d)).isSome = true) :
    run state input output geom
      = Except.ok
          { output := input.detIDs.foldl (processDet c geom input) output,
            events := input.detIDs.flatMap (eventsAt input)
              ++ [RunEvent.logDebug state.clusterMode
                  ((input.detIDs.map fun d => (clustersAt c geom input d).length).sum)
                  input.detIDs.length],
            state := state } := by
  rw [run, if_neg (by simp [hready])]
  simp only [hc]
  rw [runLoop_ok_of_resolve c geom input input.detIDs hres output [] 0 0]
  simp

/-- A READY `run` returns normally iff every identifier in the input resolves
to a pixel geometry descriptor; otherwise it hits the fatal `assert(0)`. -/
theorem run_ready_isOk_iff {δ γ π : Type} (state : ProducerState δ γ π)
    (hready : state.readyToCluster = true) (c : Clusterizer δ γ π)
    (hc : state.clusterizer = some c) (input : PixelDigiCollection δ)
    (output : SiPixelClusterCollection γ) (geom : TrackerGeometry π) :
    (run state input output geom).isOk = true
      ↔ ∀ d ∈ input.detIDs, (toPixelDet (geom d)).isSome = true := by
  rw [← runLoop_isOk_iff c geom input input.detIDs output [] 0 0]
  rw [run, if_neg (by simp [hready])]
  simp only [hc]
  cases hrl : runLoop c geom input input.detIDs output [] 0 0 with
  | error e => simp [hrl, Except.isOk, Except.toBool]
  | ok q =>
    obtain ⟨o, ev, nc, nu⟩ := q
    simp [hrl, Except.isOk, Except.toBool]

/-- Any normal return of `run` leaves the module's configuration state as it
was: `run` never assigns `clusterMode_`, `clusterizer_` or `readyToCluster_`. -/
theorem run_state_frame {δ γ π : Type} (state : ProducerState δ γ π)
    (input : PixelDigiCollection δ) (output : SiPixelClusterCollection γ)
    (geom : TrackerGeometry π) (r : RunSuccess δ γ π)
    (hr : run state input output geom = Except.ok r) : r.state = state := by
  rw [run] at hr
  by_cases hready : state.readyToCluster = false
  · rw [if_pos hready] at hr
    cases hr
    rfl
  · rw [if_neg hready] at hr
    cases hc : state.clusterizer with
    | none => simp only [hc] at hr; cases hr
    | some c =>
      simp only [hc] at hr
      cases hrl : runLoop c geom input input.detIDs output [] 0 0 with
      | error e => simp only [hrl] at hr; cases hr
      | ok q =>
        obtain ⟨q1, q2, q3, q4⟩ := q
        simp only [hrl] at hr
        cases hr
        rfl

/-! ## Concrete scenario used by the witnesses -/

/-- A concrete input collection: units 5 (three digis), 7 (no digis) and
9 (two digis), matching the spec's concrete scenario. -/
def wDigis : PixelDigiCollection Nat :=
  { detIDs := [5, 7, 9]
    get := fun d => if d = 5 then [1, 2, 3] else if d = 9 then [4, 5] else [] }

/-- A concrete geometry resolver knowing every identifier as a pixel unit. -/
def wGeom : TrackerGeometry Nat := fun _ => some (GeomDetUnit.pixel 0)

/-- A concrete deterministic strategy: two clusters on unit 5, one on unit 9,
none elsewhere, matching the spec's concrete scenario. -/
def wClusterizer : Clusterizer Nat Nat Nat :=
  fun _ d _ _ _ => if d = 5 then [10, 11] else if d = 9 then [12] else []

/-- A READY module state holding the concrete strategy. -/
def wState : ProducerState Nat Nat Nat :=
  { clusterMode := "PixelThresholdClusterizer", clusterizer := some wClusterizer,
    readyToCluster := true }

/-- A NOT_READY module state, as produced by an unsupported strategy name. -/
def wBadState : ProducerState Nat Nat Nat :=
  { clusterMode := "bogus", clusterizer := none, readyToCluster := false }

/-! ## The claims -/

/-- **C1** (key correspondence): after a READY `run` on an empty initial
output whose identifiers all resolve, an identifier `k` appears in the output
collection iff the Clustering Strategy returned a non-empty cluster sequence
for `k`'s input digi range. -/
theorem claim_C1_key_correspondence {δ γ π : Type} (state : ProducerState δ γ π)
    (hready : state.readyToCluster = true) (c : Clusterizer δ γ π)
    (hc : state.clusterizer = some c) (input : PixelDigiCollection δ)
    (geom : TrackerGeometry π)
    (hres : ∀ d ∈ input.detIDs, (toPixelDet (geom d)).isSome = true) (k : Nat) :
    ∃ r, run state input SiPixelClusterCollection.empty geom = Except.ok r ∧
      (k ∈ r.output.detIDs ↔ k ∈ input.detIDs ∧ clustersAt c geom input k ≠ []) := by
  refine ⟨_, run_ready_eq state hready c hc input _ geom hres, ?_⟩
  rw [detIDs_foldl_processDet, SiPixelClusterCollection.detIDs_empty]
  simp [List.mem_filter]

/-- Witness for C1 at the concrete scenario: unit 5 is present in the output
because the strategy clusters it. -/
theorem claim_C1_witness :
    ∃ r, run wState wDigis SiPixelClusterCollection.empty wGeom = Except.ok r ∧
      (5 ∈ r.output.detIDs ↔ 5 ∈ wDigis.detIDs ∧ clustersAt wClusterizer wGeom wDigis 5 ≠ []) :=
  claim_C1_key_correspondence wState rfl wClusterizer rfl wDigis wGeom (by decide) 5

/-- **C2** (gate inertness): a NOT_READY `run` on any input reports the
failure, yields an empty output collection, and never invokes the Geometry
Resolver or the Clustering Strategy (its event log holds only the error). -/
theorem claim_C2_gate_inertness {δ γ π : Type} (state : ProducerState δ γ π)
    (hready : state.readyToCluster = false) (input : PixelDigiCollection δ)
    (geom : TrackerGeometry π) :
    ∃ r, run state input SiPixelClusterCollection.empty geom = Except.ok r ∧
      r.output = SiPixelClusterCollection.empty ∧
      RunEvent.logError notReadyMsg ∈ r.events ∧
      ∀ e ∈ r.events, (∀ d, e ≠ RunEvent.idToDetUnitCall d) ∧
        (∀ d digis noiseVec badChannels,
          e ≠ RunEvent.clusterizeCall d digis noiseVec badChannels) := by
  refine ⟨_, run_notReady state hready input _ geom, rfl, by simp, ?_⟩
  intro e he
  simp only [List.mem_singleton] at he
  subst he
  constructor
  · intro d h
    cases h
  · intro d digis noiseVec badChannels h
    cases h

/-- Witness for C2: the NOT_READY module is inert on the concrete input. -/
theorem claim_C2_witness :
    ∃ r, run wBadState wDigis SiPixelClusterCollection.empty wGeom = Except.ok r ∧
      r.output = SiPixelClusterCollection.empty ∧
      RunEvent.logError notReadyMsg ∈ r.events ∧
      ∀ e ∈ r.events, (∀ d, e ≠ RunEvent.idToDetUnitCall d) ∧
        (∀ d digis noiseVec badChannels,
          e ≠ RunEvent.clusterizeCall d digis noiseVec badChannels) :=
  claim_C2_gate_inertness wBadState rfl wDigis wGeom

/-- A concrete input holding only the unknown identifier 42. -/
def wInput42 : PixelDigiCollection Nat := { detIDs := [42], get := fun _ => [] }

/-- A concrete input holding only the unknown identifier 43. -/
def wInput43 : PixelDigiCollection Nat := { detIDs := [43], get := fun _ => [] }

/-- A geometry resolver that knows no identifier at all (always NotFound). -/
def wGeomNotFound : TrackerGeometry Nat := fun _ => none

/-- A geometry resolver mapping identifier 42 to a non-pixel detector unit
and knowing nothing else. -/
def wGeomNonPixel : TrackerGeometry Nat :=
  fun d => if d = 42 then some GeomDetUnit.nonPixel else none

/-- A non-empty initial output collection, to exercise the frame property. -/
def wPrefilled : SiPixelClusterCollection Nat :=
  SiPixelClusterCollection.empty.put [99] 3

/-- **C3, counterexample**: the fatal condition raised on a geometry-resolution
failure does *not* identify the offending identifier.  The `assert(0)` halt
carries no information: the runs on inputs whose offending identifiers differ
(42 versus 43) produce literally identical outcomes, so no observer of the
fatal condition can recover the identifier from it. -/
theorem claim_C3_counterexample :
    run wState wInput42 SiPixelClusterCollection.empty wGeomNotFound
      = run wState wInput43 SiPixelClusterCollection.empty wGeomNotFound ∧
    run wState wInput42 SiPixelClusterCollection.empty wGeomNotFound
      = Except.error () ∧
    (42 : Nat) ≠ 43 :=
  ⟨rfl, rfl, by decide⟩

/-- **C3, amended**: if the input contains an identifier for which geometry
resolution fails, a READY `run` halts with the fatal condition and delivers no
output collection at all (so no partially-filled output is silently treated as
complete); the fatal condition does not identify the offending identifier. -/
theorem claim_C3_geometry_mismatch {δ γ π : Type} (state : ProducerState δ γ π)
    (hready : state.readyToCluster = true) (c : Clusterizer δ γ π)
    (hc : state.clusterizer = some c) (input : PixelDigiCollection δ)
    (output : SiPixelClusterCollection γ) (geom : TrackerGeometry π) (d : Nat)
    (hd : d ∈ input.detIDs) (hfail : toPixelDet (geom d) = none) :
    run state input output geom = Except.error () := by
  have hno : ¬ (run state input output geom).isOk = true := by
    rw [run_ready_isOk_iff state hready c hc input output geom]
    intro h
    have := h d hd
    rw [hfail] at this
    exact absurd this (by simp)
  cases hrun : run state input output geom with
  | ok r => rw [hrun] at hno; exact absurd rfl hno
  | error e => cases e; rfl

/-- Witness for the amended C3: on the input holding only identifier 42,
unknown to the geometry, the READY run halts fatally. -/
theorem claim_C3_witness :
    run wState wInput42 SiPixelClusterCollection.empty wGeomNotFound = Except.error () :=
  claim_C3_geometry_mismatch wState rfl wClusterizer rfl wInput42
    SiPixelClusterCollection.empty wGeomNotFound 42 (by decide) rfl

/-- **C8** (fixed placeholder inputs): in any normal READY `run`, every
invocation of the Clustering Strategy receives the fixed noise vector
`List.replicate 768 2` and the empty bad-channel list, whatever the unit's
identifier and whatever the event's input. -/
theorem claim_C8_fixed_noise {δ γ π : Type} (state : ProducerState δ γ π)
    (hready : state.readyToCluster = true) (c : Clusterizer δ γ π)
    (hc : state.clusterizer = some c) (input : PixelDigiCollection δ)
    (geom : TrackerGeometry π) (output : SiPixelClusterCollection γ)
    (r : RunSuccess δ γ π) (hr : run state input output geom = Except.ok r) :
    ∀ d digis noiseVec badChannels,
      RunEvent.clusterizeCall d digis noiseVec badChannels ∈ r.events →
        noiseVec = List.replicate 768 2 ∧ badChannels = [] := by
  have hok : (run state input output geom).isOk = true := by rw [hr]; rfl
  have hres := (run_ready_isOk_iff state hready c hc input output geom).mp hok
  rw [run_ready_eq state hready c hc input output geom hres] at hr
  have hr' := hr.symm
  cases hr'
  intro d digis noiseVec badChannels hmem
  rcases List.mem_append.mp hmem with hm | hm
  · obtain ⟨x, hx, hmx⟩ := List.mem_flatMap.mp hm
    simp only [eventsAt, List.mem_cons, List.mem_singleton, List.not_mem_nil,
      or_false] at hmx
    rcases hmx with h | h
    · cases h
    · have := RunEvent.clusterizeCall.injEq .. ▸ h
      simp only [RunEvent.clusterizeCall.injEq] at h
      exact ⟨h.2.2.1, h.2.2.2⟩
  · simp only [List.mem_singleton] at hm
    cases hm

/-- Witness for C8: on the concrete scenario, the invocation recorded for
unit 5 carries exactly the fixed noise vector and the empty bad-channel
list. -/
theorem claim_C8_witness :
    List.replicate 768 (2 : Nat) = List.replicate 768 2 ∧ ([] : List Int) = [] := by
  have hr := run_ready_eq wState rfl wClusterizer rfl wDigis
    SiPixelClusterCollection.empty wGeom (by decide)
  exact claim_C8_fixed_noise wState rfl wClusterizer rfl wDigis wGeom
    SiPixelClusterCollection.empty _ hr 5 (wDigis.get 5) (List.replicate 768 2) []
    (by decide)

/-- **C9** (geometry fatality is exactly non-pixel resolution): a READY `run`
returns normally iff every input identifier resolves, through `idToDetUnit`
then the pixel cast, to a pixel geometry descriptor; both a NotFound
resolution and a non-pixel descriptor make `toPixelDet` return `none` and
reach the fatal `assert(0)` branch, and under the precondition that all
identifiers resolve to pixel descriptors that branch is unreachable. -/
theorem claim_C9_fatal_iff_unresolved {δ γ π : Type} (state : ProducerState δ γ π)
    (hready : state.readyToCluster = true) (c : Clusterizer δ γ π)
    (hc : state.clusterizer = some c) (input : PixelDigiCollection δ)
    (output : SiPixelClusterCollection γ) (geom : TrackerGeometry π) :
    (run state input output geom).isOk = true
      ↔ ∀ d ∈ input.detIDs, (toPixelDet (geom d)).isSome = true :=
  run_ready_isOk_iff state hready c hc input output geom

/-- Witness for C9 at a concrete non-pixel resolution: identifier 42 resolves
to a non-pixel unit, so the READY run is fatal. -/
theorem claim_C9_witness :
    (run wState wInput42 SiPixelClusterCollection.empty wGeomNonPixel).isOk = true
      ↔ ∀ d ∈ wInput42.detIDs, (toPixelDet (wGeomNonPixel d)).isSome = true :=
  claim_C9_fatal_iff_unresolved wState rfl wClusterizer rfl wInput42
    SiPixelClusterCollection.empty wGeomNonPixel

/-- **C10** (frame): a NOT_READY `run` returns with the output exactly equal
to its initial value, whatever that initial value was; and no normal `run`
return, in any gate state, alters the module's configuration state (strategy
name, strategy instance, readiness flag). -/
theorem claim_C10_run_frame {δ γ π : Type} (state : ProducerState δ γ π)
    (input : PixelDigiCollection δ) (output : SiPixelClusterCollection γ)
    (geom : TrackerGeometry π) :
    (state.readyToCluster = false →
      run state input output geom
        = Except.ok { output := output, events := [RunEvent.logError notReadyMsg],
                      state := state }) ∧
    ∀ r, run state input output geom = Except.ok r → r.state = state := by
  constructor
  · intro hready
    exact run_notReady state hready input output geom
  · intro r hr
    exact run_state_frame state input output geom r hr

/-- Witness for C10: on a pre-filled initial output, the NOT_READY run
returns it unchanged, with the module state intact. -/
theorem claim_C10_witness :
    run wBadState wDigis wPrefilled wGeom
      = Except.ok { output := wPrefilled, events := [RunEvent.logError notReadyMsg],
                    state := wBadState } :=
  (claim_C10_run_frame wBadState wDigis wPrefilled wGeom).1 rfl

/-- A concrete strategy factory, standing for the external
`PixelThresholdClusterizer` constructor. -/
def wMk : ParameterSet → Clusterizer Nat Nat Nat := fun _ => wClusterizer

/-- A concrete configuration choosing an unsupported strategy name. -/
def wBadConf : ParameterSet := { clusterMode := some "bogus" }

/-- **C4** (construction gate): exactly one strategy name is recognized — the
gate is READY iff the configured name is "PixelThresholdClusterizer"; on a
match a strategy instance is built with nothing logged; on any other name the
gate is NOT_READY, no instance is built, and one configuration error is logged
whose text ends by naming the single valid choice (the function is total, so
the module stays loaded but inert). -/
theorem claim_C4_setup_gate {δ γ π : Type} (mk : ParameterSet → Clusterizer δ γ π)
    (conf : ParameterSet) :
    ((setupClusterizer mk conf).1.readyToCluster = true
        ↔ conf.getClusterMode = "PixelThresholdClusterizer") ∧
    (conf.getClusterMode = "PixelThresholdClusterizer" →
      (setupClusterizer mk conf).1.clusterizer = some (mk conf) ∧
      (setupClusterizer mk conf).2 = []) ∧
    (conf.getClusterMode ≠ "PixelThresholdClusterizer" →
      (setupClusterizer mk conf).1.readyToCluster = false ∧
      (setupClusterizer mk conf).1.clusterizer = none ∧
      (setupClusterizer mk conf).2
        = [RunEvent.logError (invalidChoiceMsg conf.getClusterMode)] ∧
      ∃ pre, invalidChoiceMsg conf.getClusterMode
        = pre ++ "    PixelThresholdClusterizer") := by
  by_cases h : conf.getClusterMode = "PixelThresholdClusterizer"
  · refine ⟨by simp [setupClusterizer, h], fun _ => ⟨?_, ?_⟩, fun hne => absurd h hne⟩
    · simp [setupClusterizer, h]
    · simp [setupClusterizer, h]
  · refine ⟨by simp [setupClusterizer, h], fun heq => absurd heq h, fun _ => ⟨?_, ?_, ?_, ?_⟩⟩
    · simp [setupClusterizer, h]
    · simp [setupClusterizer, h]
    · simp [setupClusterizer, h]
    · exact ⟨"[SiPixelClusterProducer]:" ++ " choice " ++ conf.getClusterMode
        ++ " is invalid.\n" ++ "Possible choices:\n", rfl⟩

/-- Witness for C4 at the unsupported name "bogus": the gate goes NOT_READY,
no instance is built, and the logged error names the valid choice. -/
theorem claim_C4_witness :
    (setupClusterizer wMk wBadConf).1.readyToCluster = false ∧
    (setupClusterizer wMk wBadConf).1.clusterizer = none ∧
    (setupClusterizer wMk wBadConf).2
      = [RunEvent.logError (invalidChoiceMsg wBadConf.getClusterMode)] ∧
    ∃ pre, invalidChoiceMsg wBadConf.getClusterMode
      = pre ++ "    PixelThresholdClusterizer" :=
  (claim_C4_setup_gate wMk wBadConf).2.2 (by decide)

/-- **C5** (contiguity and single insertion): after a READY `run` from an
empty output on a duplicate-free input whose identifiers all resolve, any
identifier present in the output maps under `get` to exactly the cluster
sequence the Clustering Strategy produced for it (one contiguous range, same
content and order), and was inserted exactly once. -/
theorem claim_C5_contiguity {δ γ π : Type} (state : ProducerState δ γ π)
    (hready : state.readyToCluster = true) (c : Clusterizer δ γ π)
    (hc : state.clusterizer = some c) (input : PixelDigiCollection δ)
    (geom : TrackerGeometry π)
    (hres : ∀ d ∈ input.detIDs, (toPixelDet (geom d)).isSome = true)
    (hnodup : input.detIDs.Nodup) (k : Nat) :
    ∃ r, run state input SiPixelClusterCollection.empty geom = Except.ok r ∧
      (k ∈ r.output.detIDs →
        r.output.get k = clustersAt c geom input k ∧ r.output.detIDs.count k = 1) := by
  refine ⟨_, run_ready_eq state hready c hc input _ geom hres, ?_⟩
  intro hk
  have hkeys : (input.detIDs.foldl (processDet c geom input)
      SiPixelClusterCollection.empty).detIDs
      = input.detIDs.filter (fun d => !(clustersAt c geom input d).isEmpty) := by
    rw [detIDs_foldl_processDet, SiPixelClusterCollection.detIDs_empty, List.nil_append]
  rw [hkeys] at hk ⊢
  constructor
  · rw [get_foldl_processDet c geom input input.detIDs SiPixelClusterCollection.WF_empty
      hnodup (by simp [SiPixelClusterCollection.detIDs_empty]) k]
    rw [if_neg (by simp [SiPixelClusterCollection.detIDs_empty]),
      if_pos (List.mem_of_mem_filter hk)]
  · exact List.count_eq_one_of_mem (List.Nodup.filter _ hnodup) hk

/-- Witness for C5 at the concrete scenario, identifier 5. -/
theorem claim_C5_witness :
    ∃ r, run wState wDigis SiPixelClusterCollection.empty wGeom = Except.ok r ∧
      (5 ∈ r.output.detIDs →
        r.output.get 5 = clustersAt wClusterizer wGeom wDigis 5 ∧
        r.output.detIDs.count 5 = 1) :=
  claim_C5_contiguity wState rfl wClusterizer rfl wDigis wGeom (by decide) (by decide) 5

/-- **C6** (report counts): a READY `run` from an empty output, with all
identifiers resolving, ends its event log with the summary report carrying
the strategy name, the total number of clusters produced over all units, and
the number of identifiers enumerated by the input (zero-digi and zero-cluster
units included); the output keys are exactly the units with clusters. -/
theorem claim_C6_report {δ γ π : Type} (state : ProducerState δ γ π)
    (hready : state.readyToCluster = true) (c : Clusterizer δ γ π)
    (hc : state.clusterizer = some c) (input : PixelDigiCollection δ)
    (geom : TrackerGeometry π)
    (hres : ∀ d ∈ input.detIDs, (toPixelDet (geom d)).isSome = true) :
    ∃ r, run state input SiPixelClusterCollection.empty geom = Except.ok r ∧
      r.events = input.detIDs.flatMap (eventsAt input)
        ++ [RunEvent.logDebug state.clusterMode
            ((input.detIDs.map fun d => (clustersAt c geom input d).length).sum)
            input.detIDs.length] ∧
      r.output.detIDs
        = input.detIDs.filter (fun d => !(clustersAt c geom input d).isEmpty) := by
  refine ⟨_, run_ready_eq state hready c hc input _ geom hres, rfl, ?_⟩
  rw [detIDs_foldl_processDet, SiPixelClusterCollection.detIDs_empty, List.nil_append]

/-- Witness for C6: the spec's concrete scenario — units `{5: 3 digis,
7: 0 digis, 9: 2 digis}` and strategy results `{5: 2, 7: 0, 9: 1}` — reports
3 units visited and 3 clusters produced, with output keys exactly `[5, 9]`. -/
theorem claim_C6_witness :
    ∃ r, run wState wDigis SiPixelClusterCollection.empty wGeom = Except.ok r ∧
      RunEvent.logDebug "PixelThresholdClusterizer" 3 3 ∈ r.events ∧
      r.output.detIDs = [5, 9] := by
  obtain ⟨r, hr, hev, hkeys⟩ :=
    claim_C6_report wState rfl wClusterizer rfl wDigis wGeom (by decide)
  refine ⟨r, hr, ?_, ?_⟩
  · rw [hev]
    decide
  · rw [hkeys]
    decide

/-- Pointwise congruence of the pipeline loop: extensionally equal digi
collections, geometry resolvers and clustering strategies drive `runLoop` to
literally identical results. -/
theorem runLoop_congr {δ γ π : Type} {c₁ c₂ : Clusterizer δ γ π}
    {geom₁ geom₂ : TrackerGeometry π} {input₁ input₂ : PixelDigiCollection δ}
    (hget : ∀ d, input₁.get d = input₂.get d) (hgeom : ∀ d, geom₁ d = geom₂ d)
    (hcl : ∀ digis d p noiseVec badChannels,
      c₁ digis d p noiseVec badChannels = c₂ digis d p noiseVec badChannels)
    (l : List Nat) (output : SiPixelClusterCollection γ)
    (events : List (RunEvent δ γ)) (numberOfClusters numberOfDetUnits : Nat) :
    runLoop c₁ geom₁ input₁ l output events numberOfClusters numberOfDetUnits
      = runLoop c₂ geom₂ input₂ l output events numberOfClusters numberOfDetUnits := by
  induction l generalizing output events numberOfClusters numberOfDetUnits with
  | nil => rfl
  | cons d rest ih =>
    cases hpix : toPixelDet (geom₂ d) with
    | none =>
      have hpix1 : toPixelDet (geom₁ d) = none := by rw [hgeom d, hpix]
      simp only [runLoop, hpix, hpix1]
    | some pixDet =>
      have hpix1 : toPixelDet (geom₁ d) = some pixDet := by rw [hgeom d, hpix]
      simp only [runLoop, hpix, hpix1, hget d, hcl]
      by_cases hlen : (c₂ (input₂.get d) d pixDet (List.replicate 768 2) []).length > 0
      · rw [if_pos hlen, if_pos hlen, ih]
      · rw [if_neg hlen, if_neg hlen, ih]

/-- The output collection a `run` outcome delivers, if any. -/
def runOutput {δ γ π : Type} :
    Except Unit (RunSuccess δ γ π) → Option (SiPixelClusterCollection γ)
  | Except.ok r => some r.output
  | Except.error _ => none

/-- **C7** (determinism): two executions of the pipeline over identical
inputs — same gate state, extensionally equal strategies, digi collections
and geometry resolvers, same initial output — deliver identical output
collections; in particular the key enumerations and all per-key cluster
sequences coincide. -/
theorem claim_C7_determinism {δ γ π : Type} {state₁ state₂ : ProducerState δ γ π}
    {c₁ c₂ : Clusterizer δ γ π} (hc₁ : state₁.clusterizer = some c₁)
    (hc₂ : state₂.clusterizer = some c₂)
    (hmode : state₁.readyToCluster = state₂.readyToCluster)
    {input₁ input₂ : PixelDigiCollection δ} (hdet : input₁.detIDs = input₂.detIDs)
    (hget : ∀ d, input₁.get d = input₂.get d)
    {geom₁ geom₂ : TrackerGeometry π} (hgeom : ∀ d, geom₁ d = geom₂ d)
    (hcl : ∀ digis d p noiseVec badChannels,
      c₁ digis d p noiseVec badChannels = c₂ digis d p noiseVec badChannels)
    (output : SiPixelClusterCollection γ) :
    runOutput (run state₁ input₁ output geom₁)
      = runOutput (run state₂ input₂ output geom₂) ∧
    ∀ r₁ r₂, run state₁ input₁ output geom₁ = Except.ok r₁ →
      run state₂ input₂ output geom₂ = Except.ok r₂ →
        r₁.output.detIDs = r₂.output.detIDs ∧
        ∀ k, r₁.output.get k = r₂.output.get k := by
  by_cases hready : state₁.readyToCluster = false
  · have hready₂ : state₂.readyToCluster = false := hmode ▸ hready
    rw [run_notReady state₁ hready input₁ output geom₁,
      run_notReady state₂ hready₂ input₂ output geom₂]
    refine ⟨rfl, ?_⟩
    intro r₁ r₂ h₁ h₂
    cases h₁
    cases h₂
    exact ⟨rfl, fun k => rfl⟩
  · have hready₂ : ¬ state₂.readyToCluster = false := hmode ▸ hready
    have hloop : runLoop c₁ geom₁ input₁ input₁.detIDs output [] 0 0
        = runLoop c₂ geom₂ input₂ input₂.detIDs output [] 0 0 := by
      rw [hdet]
      exact runLoop_congr hget hgeom hcl input₂.detIDs output [] 0 0
    rw [run, run, if_neg hready, if_neg hready₂]
    simp only [hc₁, hc₂, hloop]
    cases hq : runLoop c₂ geom₂ input₂ input₂.detIDs output [] 0 0 with
    | error e =>
      refine ⟨rfl, ?_⟩
      intro r₁ r₂ h₁ h₂
      cases h₁
    | ok q =>
      obtain ⟨o, ev, nc, nu⟩ := q
      refine ⟨rfl, ?_⟩
      intro r₁ r₂ h₁ h₂
      cases h₁
      cases h₂
      exact ⟨rfl, fun k => rfl⟩

/-- Witness for C7: the two runs of the concrete scenario agree. -/
theorem claim_C7_witness :
    runOutput (run wState wDigis SiPixelClusterCollection.empty wGeom)
      = runOutput (run wState wDigis SiPixelClusterCollection.empty wGeom) ∧
    ∀ r₁ r₂, run wState wDigis SiPixelClusterCollection.empty wGeom = Except.ok r₁ →
      run wState wDigis SiPixelClusterCollection.empty wGeom = Except.ok r₂ →
        r₁.output.detIDs = r₂.output.detIDs ∧
        ∀ k, r₁.output.get k = r₂.output.get k :=
  claim_C7_determinism rfl rfl rfl rfl (fun _ => rfl) (fun _ => rfl)
    (fun _ _ _ _ _ => rfl) SiPixelClusterCollection.empty

end SiPixelClusterizer
